import Mathlib

/-!
# Verification of the songs-dashboard data pipeline

Shallow embedding of the data-preparation, aggregation and filtering logic of
`src/Python_project.py` (a single-file streamlit dashboard over a songs CSV),
together with theorems settling the specification's claims about it.

The embedding models:
* the loader `load_data` (lines 17-34): CSV read, `pd.to_datetime(..., format='%d-%m-%Y',
  errors='coerce')`, year extraction, `dropna` on the year;
* the aggregations `data_songs_per_year` (line 94) and `avg_popularity_genre` (line 125);
* the sampling call `df.sample(5000)` (line 168);
* the Song-Explorer filter block (lines 223-233): empty-genre guard and the
  conjunctive boolean-mask filter `filtered_df`.
-/

namespace SongsDashboard

/-! ## Date parsing (pandas `to_datetime` with `format='%d-%m-%Y'`, `errors='coerce'`)

`pd.to_datetime` with an explicit `%d-%m-%Y` format accepts a string `D-M-Y` whose
three dash-separated fields are numeric, with a valid calendar day for the month
(leap years respected) and with the resulting date inside the representable
`datetime64[ns]` range (1677-09-21T00:12+ .. 2262-04-11T23:47, so whole days
1677-09-22 .. 2262-04-11); anything else becomes `NaT` under `errors='coerce'`. -/

def isLeapYear (y : Nat) : Bool :=
  y % 4 == 0 && (y % 100 != 0 || y % 400 == 0)

def daysInMonth (y m : Nat) : Nat :=
  if m == 2 then (if isLeapYear y then 29 else 28)
  else if m == 4 || m == 6 || m == 9 || m == 11 then 30
  else 31

/-- Lexicographic order on (year, month, day) triples. -/
def dateTripleLe : Nat × Nat × Nat → Nat × Nat × Nat → Bool
  | (y1, m1, d1), (y2, m2, d2) =>
    y1 < y2 || (y1 == y2 && (m1 < m2 || (m1 == m2 && d1 ≤ d2)))

/-- Whether a calendar day is fully inside the `datetime64[ns]` range; dates outside
become `NaT` under `errors='coerce'`. -/
def timestampInBounds (y m d : Nat) : Bool :=
  dateTripleLe (1677, 9, 22) (y, m, d) && dateTripleLe (y, m, d) (2262, 4, 11)

/-- Split a character list at every dash, like `String.splitOn "-"` on the
underlying characters (the empty input yields one empty field). -/
def splitOnDash : List Char → List (List Char)
  | [] => [[]]
  | c :: rest =>
    let r := splitOnDash rest
    if c = '-' then [] :: r
    else
      match r with
      | [] => [[c]]
      | h :: t => (c :: h) :: t

def digitsToNatAux : List Char → Nat → Option Nat
  | [], acc => some acc
  | c :: rest, acc =>
    if c.isDigit then digitsToNatAux rest (acc * 10 + (c.toNat - 48)) else none

/-- Numeric value of a nonempty all-digit field, like `String.toNat?`. -/
def digitsToNat? (cs : List Char) : Option Nat :=
  match cs with
  | [] => none
  | _ => digitsToNatAux cs 0

/-- Parse a `Release Date` cell under the fixed `%d-%m-%Y` format; `none` models `NaT`.
Returns `(day, month, year)`. -/
def parseReleaseDate (s : String) : Option (Nat × Nat × Nat) :=
  match splitOnDash s.data with
  | [ds, ms, ys] =>
    match digitsToNat? ds, digitsToNat? ms, digitsToNat? ys with
    | some d, some m, some y =>
      if 1 ≤ m && m ≤ 12 && 1 ≤ d && d ≤ daysInMonth y m && timestampInBounds y m d
      then some (d, m, y) else none
    | _, _, _ => none
  | _ => none

/-! ## The loader (`load_data`, lines 17-34)

A CSV row is an association list from column names to cell strings.  A loaded row
keeps its cells and carries the derived integer `release_year`.  The loader:
* fails like `pd.read_csv` on a missing file (`FileNotFoundError` → `st.stop`), modelled
  by `LoadResult.notFound`;
* fails on any other read/parse exception (`except Exception` → `st.stop`), modelled by
  `LoadResult.loadError`; inside the `try` block the only column access is
  `df['Release Date']`, which raises `KeyError` exactly when that column is absent;
* otherwise parses each row's `Release Date`, drops rows where parsing yields `NaT`
  (`dropna(subset=['release_year'])`), and sets `release_year` to the parsed year. -/

abbrev CsvRow := List (String × String)

def getCell (row : CsvRow) (c : String) : Option String :=
  (row.find? (fun kv => kv.1 == c)).map (fun kv => kv.2)

structure CsvFile where
  /-- Set when `pd.read_csv` itself raises on the file (encoding/parse failure). -/
  malformed : Bool
  header : List String
  rows : List CsvRow
deriving DecidableEq

structure LoadedRow where
  cells : CsvRow
  releaseYear : Nat
deriving DecidableEq

inductive LoadResult where
  | ok (rows : List LoadedRow)
  | notFound
  | loadError
deriving DecidableEq

/-- The row-processing part of `load_data`: `to_datetime` + `dropna` + year extraction. -/
def load_data_rows (rows : List CsvRow) : List LoadedRow :=
  rows.filterMap (fun r =>
    ((getCell r "Release Date").bind parseReleaseDate).map
      (fun dmy => ⟨r, dmy.2.2⟩))

/-- The loader `load_data` (lines 17-34); `none` models a nonexistent path. -/
def load_data (file : Option CsvFile) : LoadResult :=
  match file with
  | none => LoadResult.notFound
  | some f =>
    if f.malformed then LoadResult.loadError
    else if f.header.contains "Release Date" then
      LoadResult.ok (load_data_rows f.rows)
    else LoadResult.loadError

/-! ## The typed dataset and the Song-Explorer filter (lines 223-233) -/

structure Song where
  title : String
  artist : String
  genre : String
  releaseYear : Int
  popularity : Int
  duration : Int
deriving DecidableEq

/-- The boolean-mask filter of lines 227-233:
`df[(df['Genre'].isin(selected_genres)) & (df['release_year'] >= y1) & ... ]`. -/
def filtered_df (df : List Song) (selectedGenres : List String)
    (yearRange popRange : Int × Int) : List Song :=
  df.filter (fun s =>
    selectedGenres.contains s.genre &&
    decide (yearRange.1 ≤ s.releaseYear) && decide (s.releaseYear ≤ yearRange.2) &&
    decide (popRange.1 ≤ s.popularity) && decide (s.popularity ≤ popRange.2))

/-- Outcome of the Song-Explorer page's filter block (lines 223-233):
`if not selected_genres: st.warning(...); st.stop()` else render `filtered_df`. -/
inductive ExplorerResult where
  | emptySelection
  | table (rows : List Song)
deriving DecidableEq

def explorer_filter (df : List Song) (selectedGenres : List String)
    (yearRange popRange : Int × Int) : ExplorerResult :=
  if selectedGenres.isEmpty then ExplorerResult.emptySelection
  else ExplorerResult.table (filtered_df df selectedGenres yearRange popRange)

/-! ## Aggregations -/

/-- Sorted-unique grouping keys, as `pandas.groupby` produces (keys sorted ascending). -/
def sortedKeysInt (l : List Int) : List Int :=
  l.dedup.insertionSort (fun a b => a ≤ b)

/-- Lexicographic code-point order on strings, Python's comparison on `str`. -/
def charListLe : List Char → List Char → Bool
  | [], _ => true
  | _ :: _, [] => false
  | a :: as, b :: bs =>
    if a.toNat < b.toNat then true
    else if b.toNat < a.toNat then false
    else charListLe as bs

def strLe (a b : String) : Bool := charListLe a.data b.data

def sortedKeysStr (l : List String) : List String :=
  l.dedup.insertionSort (fun a b => strLe a b = true)

/-- Aggregation `data_songs_per_year` (line 94): `df.groupby('release_year').size()`. -/
def data_songs_per_year (df : List Song) : List (Int × Nat) :=
  (sortedKeysInt (df.map (fun s => s.releaseYear))).map
    (fun y => (y, (df.filter (fun s => s.releaseYear == y)).length))

/-- Popularity values of the rows of genre `g`. -/
def genrePopularities (df : List Song) (g : String) : List Int :=
  (df.filter (fun s => s.genre == g)).map (fun s => s.popularity)

/-- Arithmetic mean of popularity over genre `g`, in exact arithmetic. -/
def meanPop (df : List Song) (g : String) : ℚ :=
  ((genrePopularities df g).map (fun p : Int => (p : ℚ))).sum /
    ((genrePopularities df g).length : ℚ)

/-- Aggregation `avg_popularity_genre` (line 125): `df.groupby('Genre')['Popularity'].mean()`. -/
def avg_popularity_genre (df : List Song) : List (String × ℚ) :=
  (sortedKeysStr (df.map (fun s => s.genre))).map (fun g => (g, meanPop df g))

/-- Sampling `df.sample(n)` (line 168), pandas semantics with `replace=False`: raises
`ValueError` when `n` exceeds the population size, otherwise returns the rows at `n`
chosen positions (the choice of `idxs` models the unseeded randomness source). -/
def sample (df : List Song) (n : Nat) (idxs : List Nat) : Except String (List Song) :=
  if df.length < n then
    Except.error "Cannot take a larger sample than population when replace is False"
  else
    Except.ok ((idxs.take n).filterMap (fun i => df[i]?))

/-! ## The two-row example dataset of the specification -/

def songA : Song :=
  { title := "A", artist := "A", genre := "Pop", releaseYear := 2010,
    popularity := 80, duration := 200 }

def songB : Song :=
  { title := "B", artist := "B", genre := "Rock", releaseYear := 2015,
    popularity := 40, duration := 180 }

def exampleDf : List Song := [songA, songB]

end SongsDashboard

namespace SongsDashboard

/-! ## Helper lemmas -/

lemma parse_year_bounds (s : String) (d m y : Nat)
    (h : parseReleaseDate s = some (d, m, y)) : 1677 ≤ y ∧ y ≤ 2262 := by
  unfold parseReleaseDate at h
  split at h
  · split at h
    · split at h
      · rename_i cond
        simp only [Option.some.injEq, Prod.mk.injEq] at h
        obtain ⟨rfl, rfl, rfl⟩ := h
        simp only [timestampInBounds, dateTripleLe, Bool.and_eq_true, Bool.or_eq_true,
          decide_eq_true_eq, beq_iff_eq] at cond
        omega
      · exact absurd h (by simp)
    · exact absurd h (by simp)
  · exact absurd h (by simp)

lemma load_data_some_eq (f : CsvFile) :
    load_data (some f) =
      (if f.malformed then LoadResult.loadError
       else if f.header.contains "Release Date" then
         LoadResult.ok (load_data_rows f.rows)
       else LoadResult.loadError) := rfl

lemma load_data_ok_rows (f : CsvFile) (ds : List LoadedRow)
    (h : load_data (some f) = LoadResult.ok ds) : ds = load_data_rows f.rows := by
  rw [load_data_some_eq] at h
  by_cases hm : f.malformed = true
  · rw [if_pos hm] at h
    exact absurd h (by simp)
  · rw [if_neg hm] at h
    by_cases hc : f.header.contains "Release Date" = true
    · rw [if_pos hc] at h
      exact (LoadResult.ok.inj h).symm
    · rw [if_neg hc] at h
      exact absurd h (by simp)

lemma sum_map_add {α : Type} (l : List α) (f g : α → Nat) :
    (l.map (fun a => f a + g a)).sum = (l.map f).sum + (l.map g).sum := by
  induction l with
  | nil => simp
  | cons x t ih => simp [ih]; omega

lemma sum_indicator_notMem (ys : List Int) (a : Int) (h : a ∉ ys) :
    (ys.map (fun y => if a = y then (1 : Nat) else 0)).sum = 0 := by
  induction ys with
  | nil => simp
  | cons y t ih =>
    simp only [List.mem_cons, not_or] at h
    simp [List.map_cons, List.sum_cons, h.1, ih h.2]

lemma sum_indicator_mem (ys : List Int) (a : Int) (hnd : ys.Nodup) (hmem : a ∈ ys) :
    (ys.map (fun y => if a = y then (1 : Nat) else 0)).sum = 1 := by
  induction ys with
  | nil => exact absurd hmem (List.not_mem_nil a)
  | cons y t ih =>
    rw [List.nodup_cons] at hnd
    rcases List.mem_cons.mp hmem with h | h
    · subst h
      simp [sum_indicator_notMem t a hnd.1]
    · have hay : a ≠ y := fun hc => hnd.1 (hc ▸ h)
      simp [hay, ih hnd.2 h]

lemma sum_year_counts (ys : List Int) (df : List Song)
    (hnd : ys.Nodup) (hcov : ∀ s ∈ df, s.releaseYear ∈ ys) :
    (ys.map (fun y => (df.filter (fun s => s.releaseYear == y)).length)).sum
      = df.length := by
  induction df with
  | nil => simp
  | cons s t ih =>
    have hcount : ∀ y : Int,
        ((s :: t).filter (fun r => r.releaseYear == y)).length
          = (if s.releaseYear = y then (1 : Nat) else 0)
            + (t.filter (fun r => r.releaseYear == y)).length := by
      intro y
      by_cases h : s.releaseYear = y
      · simp [List.filter_cons, h]
        omega
      · simp [List.filter_cons, h]
    calc (ys.map (fun y => ((s :: t).filter (fun r => r.releaseYear == y)).length)).sum
        = (ys.map (fun y => (if s.releaseYear = y then (1 : Nat) else 0)
            + (t.filter (fun r => r.releaseYear == y)).length)).sum := by
          congr 1
          exact List.map_congr_left (fun y _ => hcount y)
      _ = (ys.map (fun y => if s.releaseYear = y then (1 : Nat) else 0)).sum
            + (ys.map (fun y => (t.filter (fun r => r.releaseYear == y)).length)).sum :=
          sum_map_add ys _ _
      _ = 1 + t.length := by
          rw [sum_indicator_mem ys s.releaseYear hnd (hcov s (List.mem_cons_self s t)),
            ih (fun r hr => hcov r (List.mem_cons_of_mem s hr))]
      _ = (s :: t).length := by simp [Nat.add_comm]

end SongsDashboard

namespace SongsDashboard

/-! ## Claim theorems -/

/-- C1: for every dataset, non-empty genre set and year/popularity ranges, `filtered_df`
retains a row iff its genre is selected, its release year lies in the year range and its
popularity lies in the popularity range; and on the spec's two-row example dataset,
filtering with genres `{Pop}`, years `(2000, 2020)` and popularity `(50, 100)` yields
exactly the row `A`. -/
theorem filter_mem_iff_and_example (ds : List Song) (G : List String)
    (y1 y2 p1 p2 : Int) (s : Song) (hG : G ≠ []) :
    (s ∈ filtered_df ds G (y1, y2) (p1, p2) ↔
      s ∈ ds ∧ s.genre ∈ G ∧ y1 ≤ s.releaseYear ∧ s.releaseYear ≤ y2 ∧
        p1 ≤ s.popularity ∧ s.popularity ≤ p2) ∧
    filtered_df exampleDf ["Pop"] (2000, 2020) (50, 100) = [songA] := by
  constructor
  · simp [filtered_df, List.mem_filter, and_assoc]
  · decide

/-- Witness for C1: instantiated at the spec's example dataset, the selected row `A`
and its filter settings. -/
theorem filter_mem_iff_and_example_witness :
    ((songA ∈ filtered_df exampleDf ["Pop"] (2000, 2020) (50, 100) ↔
      songA ∈ exampleDf ∧ songA.genre ∈ ["Pop"] ∧
        (2000 : Int) ≤ songA.releaseYear ∧ songA.releaseYear ≤ 2020 ∧
        (50 : Int) ≤ songA.popularity ∧ songA.popularity ≤ 100) ∧
    filtered_df exampleDf ["Pop"] (2000, 2020) (50, 100) = [songA]) :=
  filter_mem_iff_and_example exampleDf ["Pop"] 2000 2020 50 100 songA (by decide)

/-- C2: whenever the loader succeeds, every surviving record carries a (non-null)
`release_year` that is a 4-digit integer equal to the year of its parsed
`release_datetime`, and any input row whose `Release Date` fails to parse under the
fixed day-month-year format appears nowhere in the result. -/
theorem loader_release_year_consistent (f : CsvFile) (ds : List LoadedRow)
    (h : load_data (some f) = LoadResult.ok ds) :
    (∀ lr ∈ ds,
      (∃ d m, (getCell lr.cells "Release Date").bind parseReleaseDate
          = some (d, m, lr.releaseYear)) ∧
      1000 ≤ lr.releaseYear ∧ lr.releaseYear ≤ 9999) ∧
    (∀ r ∈ f.rows, (getCell r "Release Date").bind parseReleaseDate = none →
      ∀ lr ∈ ds, lr.cells ≠ r) := by
  have hds := load_data_ok_rows f ds h
  have part1 : ∀ lr ∈ ds,
      (∃ d m, (getCell lr.cells "Release Date").bind parseReleaseDate
          = some (d, m, lr.releaseYear)) ∧
      1000 ≤ lr.releaseYear ∧ lr.releaseYear ≤ 9999 := by
    intro lr hlr
    rw [hds, load_data_rows, List.mem_filterMap] at hlr
    obtain ⟨r, _, hr⟩ := hlr
    rw [Option.map_eq_some'] at hr
    obtain ⟨⟨d, m, y⟩, hbind, hlr'⟩ := hr
    have hcells : lr.cells = r := by rw [← hlr']
    have hyear : lr.releaseYear = y := by rw [← hlr']
    obtain ⟨str, _, hparse⟩ := Option.bind_eq_some.mp hbind
    have hb := parse_year_bounds str d m y hparse
    refine ⟨⟨d, m, ?_⟩, by omega, by omega⟩
    rw [hcells, hyear]
    exact hbind
  refine ⟨part1, ?_⟩
  intro r _ hnone lr hlr hcells
  obtain ⟨⟨d, m, hsome⟩, -, -⟩ := part1 lr hlr
  rw [hcells, hnone] at hsome
  exact Option.noConfusion hsome

/-- A well-formed CSV input with one parseable row (`01-06-2010`) and one row whose
date does not parse. -/
def exampleCsv : CsvFile :=
  { malformed := false,
    header := ["Title", "Artist", "Genre", "Release Date", "Popularity", "Duration"],
    rows := [[("Title", "A"), ("Release Date", "01-06-2010")],
             [("Title", "B"), ("Release Date", "bad")]] }

def exampleLoadedRow : LoadedRow :=
  { cells := [("Title", "A"), ("Release Date", "01-06-2010")], releaseYear := 2010 }

/-- Witness for C2: on `exampleCsv`, the loader keeps exactly the parseable row with
`release_year = 2010`, and the theorem's conclusion holds for it. -/
theorem loader_release_year_consistent_witness :
    (∃ d m, (getCell exampleLoadedRow.cells "Release Date").bind parseReleaseDate
        = some (d, m, exampleLoadedRow.releaseYear)) ∧
    1000 ≤ exampleLoadedRow.releaseYear ∧ exampleLoadedRow.releaseYear ≤ 9999 :=
  (loader_release_year_consistent exampleCsv [exampleLoadedRow] (by decide)).1
    exampleLoadedRow (by decide)

/-- C3: the Song-Explorer filter block with an empty genre selection always yields the
`EmptySelection` outcome (warning shown, rendering skipped) and never produces any
table — neither all rows nor an empty table treated as valid. -/
theorem empty_genre_selection_signals (ds : List Song) (Y P : Int × Int) :
    explorer_filter ds [] Y P = ExplorerResult.emptySelection ∧
    ∀ rows : List Song, explorer_filter ds [] Y P ≠ ExplorerResult.table rows := by
  refine ⟨rfl, ?_⟩
  intro rows h
  exact ExplorerResult.noConfusion h

/-- C5: `filtered_df` is idempotent — filtering an already-filtered view with the same
non-empty genre set and the same year and popularity ranges returns the identical view. -/
theorem filter_idempotent (ds : List Song) (G : List String) (Y P : Int × Int)
    (hG : G ≠ []) :
    filtered_df (filtered_df ds G Y P) G Y P = filtered_df ds G Y P := by
  simp [filtered_df, List.filter_filter]

/-- Witness for C5: idempotence instantiated on the example dataset. -/
theorem filter_idempotent_witness :
    filtered_df (filtered_df exampleDf ["Pop"] (2000, 2020) (50, 100)) ["Pop"]
        (2000, 2020) (50, 100)
      = filtered_df exampleDf ["Pop"] (2000, 2020) (50, 100) :=
  filter_idempotent exampleDf ["Pop"] (2000, 2020) (50, 100) (by decide)

/-- C6: the per-year counts produced by `data_songs_per_year` sum exactly to the number
of records in the dataset. -/
theorem songs_per_year_counts_sum (df : List Song) :
    ((data_songs_per_year df).map Prod.snd).sum = df.length := by
  rw [data_songs_per_year, List.map_map]
  have hperm : (sortedKeysInt (df.map (fun s => s.releaseYear))).Perm
      (df.map (fun s => s.releaseYear)).dedup :=
    List.perm_insertionSort _ _
  have hnd : (sortedKeysInt (df.map (fun s => s.releaseYear))).Nodup :=
    hperm.symm.nodup (List.nodup_dedup _)
  have hcov : ∀ s ∈ df,
      s.releaseYear ∈ sortedKeysInt (df.map (fun s => s.releaseYear)) := by
    intro s hs
    rw [hperm.mem_iff, List.mem_dedup]
    exact List.mem_map.mpr ⟨s, hs, rfl⟩
  exact sum_year_counts _ df hnd hcov

/-- C7: filtering derives a new view and leaves the base dataset untouched: in this
pure embedding `filtered_df` only reads `ds`, and its result is a sublist of `ds` —
a subset of `ds`'s rows, of the same `Song` schema. -/
theorem filter_derives_subview (ds : List Song) (G : List String) (Y P : Int × Int) :
    (filtered_df ds G Y P).Sublist ds ∧ ∀ s ∈ filtered_df ds G Y P, s ∈ ds := by
  refine ⟨List.filter_sublist ds, ?_⟩
  intro s hs
  exact (List.filter_sublist ds).subset hs

/-- C8: every mean produced by `avg_popularity_genre` for a genre present in the
dataset lies within the closed interval spanned by the minimum and maximum popularity
observed for that genre. -/
theorem mean_popularity_within_bounds (df : List Song) (g : String) (q : ℚ)
    (lo hi : Int)
    (hmem : (g, q) ∈ avg_popularity_genre df)
    (hlo : (genrePopularities df g).min? = some lo)
    (hhi : (genrePopularities df g).max? = some hi) :
    (lo : ℚ) ≤ q ∧ q ≤ (hi : ℚ) := by
  haveI : Std.Antisymm (fun (x1 x2 : Int) => x1 ≤ x2) :=
    ⟨fun h1 h2 => le_antisymm h1 h2⟩
  have hq : q = meanPop df g := by
    simp only [avg_popularity_genre, List.mem_map, Prod.mk.injEq] at hmem
    obtain ⟨g', _, rfl, rfl⟩ := hmem
    rfl
  set l := genrePopularities df g with hl
  have hlo' := (List.min?_eq_some_iff (fun a => le_refl a) (fun a b => min_choice a b)
    (fun a b c => le_min_iff)).mp hlo
  have hhi' := (List.max?_eq_some_iff (fun a => le_refl a) (fun a b => max_choice a b)
    (fun a b c => max_le_iff)).mp hhi
  have hne : l ≠ [] := by
    intro h
    rw [h] at hlo'
    exact absurd hlo'.1 (List.not_mem_nil lo)
  have hlen : (0 : ℚ) < (l.length : ℚ) := by
    have := List.length_pos.mpr hne
    exact_mod_cast this
  have hsum_lo : (l.length : ℚ) * (lo : ℚ) ≤ (l.map (fun p : Int => (p : ℚ))).sum := by
    have h := List.card_nsmul_le_sum (l.map (fun p : Int => (p : ℚ))) (lo : ℚ) ?_
    · rw [nsmul_eq_mul, List.length_map] at h
      exact h
    · intro x hx
      obtain ⟨p, hp, rfl⟩ := List.mem_map.mp hx
      exact_mod_cast hlo'.2 p hp
  have hsum_hi : (l.map (fun p : Int => (p : ℚ))).sum ≤ (l.length : ℚ) * (hi : ℚ) := by
    have h := List.sum_le_card_nsmul (l.map (fun p : Int => (p : ℚ))) (hi : ℚ) ?_
    · rw [nsmul_eq_mul, List.length_map] at h
      exact h
    · intro x hx
      obtain ⟨p, hp, rfl⟩ := List.mem_map.mp hx
      exact_mod_cast hhi'.2 p hp
  rw [hq, meanPop, ← hl]
  constructor
  · rw [le_div_iff₀ hlen]
    calc (lo : ℚ) * l.length = l.length * lo := by ring
    _ ≤ _ := hsum_lo
  · rw [div_le_iff₀ hlen]
    calc (l.map (fun p : Int => (p : ℚ))).sum ≤ (l.length : ℚ) * hi := hsum_hi
    _ = hi * l.length := by ring

/-- Witness for C8: on the example dataset the genre `Pop` has observed popularity
bounds `[80, 80]`, and its mean popularity lies within them. -/
theorem mean_popularity_within_bounds_witness :
    (((80 : Int) : ℚ) ≤ meanPop exampleDf "Pop") ∧
    (meanPop exampleDf "Pop" ≤ ((80 : Int) : ℚ)) :=
  mean_popularity_within_bounds exampleDf "Pop" (meanPop exampleDf "Pop") 80 80
    (List.mem_map.mpr ⟨"Pop", by decide, rfl⟩) (by decide) (by decide)

/-- C9: sampling more records than the dataset holds fails with pandas' bounds error
(`ValueError`) and never returns a row list, in particular never fewer than `n` rows. -/
theorem sample_oversize_errors (df : List Song) (n : Nat) (idxs : List Nat)
    (h : df.length < n) :
    sample df n idxs
        = Except.error
            "Cannot take a larger sample than population when replace is False" ∧
    ∀ res : List Song, sample df n idxs ≠ Except.ok res := by
  unfold sample
  rw [if_pos h]
  refine ⟨rfl, ?_⟩
  intro res hres
  exact Except.noConfusion hres

/-- Witness for C9: sampling 5000 rows from the two-row example dataset errors out. -/
theorem sample_oversize_errors_witness :
    sample exampleDf 5000 []
        = Except.error
            "Cannot take a larger sample than population when replace is False" ∧
    sample exampleDf 5000 [] ≠ Except.ok [] :=
  ⟨(sample_oversize_errors exampleDf 5000 [] (by decide)).1,
   (sample_oversize_errors exampleDf 5000 [] (by decide)).2 []⟩

/-- C10: filtering only selects rows — the retained rows appear in the same relative
order as in the base dataset, and each one is field-for-field the record of the base
dataset it came from, exhibited by an order-preserving embedding of positions. -/
theorem filter_preserves_order_and_rows (ds : List Song) (G : List String)
    (Y P : Int × Int) :
    ∃ f : Fin (filtered_df ds G Y P).length ↪o Fin ds.length,
      ∀ ix, (filtered_df ds G Y P).get ix = ds.get (f ix) :=
  List.sublist_iff_exists_fin_orderEmbedding_get_eq.mp (List.filter_sublist ds)

end SongsDashboard

namespace SongsDashboard

/-- A readable CSV file that has the `Release Date` column but lacks the required
`Title` column. -/
def fileMissingTitle : CsvFile :=
  { malformed := false,
    header := ["Artist", "Genre", "Release Date", "Popularity", "Duration"],
    rows := [] }

/-- Counterexample to C4 as stated: a file missing the required `Title` column does
not make the loader fail — `load_data` returns an ordinary dataset, not `LoadError`. -/
theorem load_missing_required_column_loads :
    fileMissingTitle.header.contains "Title" = false ∧
    load_data (some fileMissingTitle) = LoadResult.ok [] ∧
    load_data (some fileMissingTitle) ≠ LoadResult.loadError := by
  refine ⟨by decide, by decide, by decide⟩

/-- C4 (amended): `load_data` fails with `NotFound` exactly when the path does not
exist; it fails with `LoadError` when the file cannot be read or parsed, or when the
`Release Date` column — the only column the loader accesses — is missing; a file
missing only other required columns loads without error; and on success the result is
always the fully processed row list, never a partially populated dataset. -/
theorem load_error_taxonomy :
    (load_data none = LoadResult.notFound) ∧
    (∀ f : CsvFile, load_data (some f) ≠ LoadResult.notFound) ∧
    (∀ f : CsvFile, f.malformed = true → load_data (some f) = LoadResult.loadError) ∧
    (∀ f : CsvFile, f.malformed = false → f.header.contains "Release Date" = false →
      load_data (some f) = LoadResult.loadError) ∧
    (∀ (f : CsvFile) (ds : List LoadedRow), load_data (some f) = LoadResult.ok ds →
      ds = load_data_rows f.rows) := by
  refine ⟨rfl, ?_, ?_, ?_, load_data_ok_rows⟩
  · intro f
    rw [load_data_some_eq]
    by_cases hm : f.malformed = true
    · simp [hm]
    · by_cases hc : f.header.contains "Release Date" = true
      · rw [if_neg hm, if_pos hc]
        simp
      · rw [if_neg hm, if_neg hc]
        simp
  · intro f hm
    rw [load_data_some_eq, if_pos hm]
  · intro f hm hc
    rw [load_data_some_eq, if_neg (by rw [hm]; simp), if_neg (by rw [hc]; simp)]

/-- A file `pd.read_csv` itself rejects. -/
def malformedFile : CsvFile :=
  { malformed := true, header := [], rows := [] }

/-- A readable file lacking the `Release Date` column. -/
def fileMissingReleaseDate : CsvFile :=
  { malformed := false,
    header := ["Title", "Artist", "Genre", "Popularity", "Duration"],
    rows := [] }

/-- Witness for C4 (amended): concrete instances of every branch of the taxonomy. -/
theorem load_error_taxonomy_witness :
    (load_data none = LoadResult.notFound) ∧
    (load_data (some exampleCsv) ≠ LoadResult.notFound) ∧
    (load_data (some malformedFile) = LoadResult.loadError) ∧
    (load_data (some fileMissingReleaseDate) = LoadResult.loadError) ∧
    ([exampleLoadedRow] = load_data_rows exampleCsv.rows) :=
  ⟨load_error_taxonomy.1,
   load_error_taxonomy.2.1 exampleCsv,
   load_error_taxonomy.2.2.1 malformedFile rfl,
   load_error_taxonomy.2.2.2.1 fileMissingReleaseDate rfl (by decide),
   load_error_taxonomy.2.2.2.2 exampleCsv [exampleLoadedRow] (by decide)⟩

/-- Witness for C3: on the example dataset with no genre selected, the explorer
signals `EmptySelection` and in particular does not return the full table. -/
theorem empty_genre_selection_signals_witness :
    explorer_filter exampleDf [] (2000, 2020) (50, 100)
        = ExplorerResult.emptySelection ∧
    explorer_filter exampleDf [] (2000, 2020) (50, 100)
        ≠ ExplorerResult.table exampleDf :=
  ⟨(empty_genre_selection_signals exampleDf (2000, 2020) (50, 100)).1,
   (empty_genre_selection_signals exampleDf (2000, 2020) (50, 100)).2 exampleDf⟩

/-- Witness for C6: the per-year counts of the example dataset sum to its two rows. -/
theorem songs_per_year_counts_sum_witness :
    ((data_songs_per_year exampleDf).map Prod.snd).sum = exampleDf.length :=
  songs_per_year_counts_sum exampleDf

/-- Witness for C7: the filtered example view is a sublist of the example dataset. -/
theorem filter_derives_subview_witness :
    (filtered_df exampleDf ["Pop"] (2000, 2020) (50, 100)).Sublist exampleDf ∧
    ∀ s ∈ filtered_df exampleDf ["Pop"] (2000, 2020) (50, 100), s ∈ exampleDf :=
  filter_derives_subview exampleDf ["Pop"] (2000, 2020) (50, 100)

/-- Witness for C10: the order-preserving embedding on the example dataset. -/
theorem filter_preserves_order_and_rows_witness :
    ∃ f : Fin (filtered_df exampleDf ["Pop"] (2000, 2020) (50, 100)).length ↪o
        Fin exampleDf.length,
      ∀ ix, (filtered_df exampleDf ["Pop"] (2000, 2020) (50, 100)).get ix
          = exampleDf.get (f ix) :=
  filter_preserves_order_and_rows exampleDf ["Pop"] (2000, 2020) (50, 100)

end SongsDashboard
